import Mathlib

/-!
Verification of the POI-to-city knowledge-graph pipeline.

The development shallowly embeds the two Python source files:
* `main (not good).py` — `to_dbpedia_uri`, `resolve_redirect`,
  `link_poi_to_city`, `create_poi_city_triples`, and the final graph merge;
* `test.py` — `parse_category_uri` (regex based) and the type-hierarchy
  chain loop of `build_kg`.

External SPARQL queries (`resolve_redirect`'s binding list,
`get_sameas_links`, `is_city_wikidata`, `get_wikidata_type_hierarchy`) are
modelled as explicit function parameters supplying the query results, so
every theorem quantifies over the possible answers of the endpoints.
Python strings are modelled as `String`/`List Char`; `rdflib` graphs are
sets of triples (`Finset Triple`), matching `rdflib.Graph`'s set semantics
for `add` and `+=`.
-/

/-- Python's `pat in s` substring test on character lists
(nonempty-pattern semantics coincide; empty pattern is always contained). -/
def hasSub (s pat : List Char) : Bool :=
  match s with
  | [] => pat.isEmpty
  | _ :: rest => pat.isPrefixOf s || hasSub rest pat

/-- `pat in s` on strings, as used by the two link filters. -/
def containsStr (s pat : String) : Bool :=
  hasSub s.data pat.data

/-- The ASCII whitespace stripped by Python's `str.strip()`. -/
def isPySpace (c : Char) : Bool :=
  c = ' ' || c = '\t' || c = '\n' || c = '\r' || c = Char.ofNat 11 || c = Char.ofNat 12

/-- Python `str.strip()`: drop leading and trailing whitespace. -/
def pyStrip (s : List Char) : List Char :=
  ((s.dropWhile isPySpace).reverse.dropWhile isPySpace).reverse

/-- Python `str.replace(" ", "_")` (single-character pattern). -/
def spacesToUnderscores (s : List Char) : List Char :=
  s.map (fun c => if c = ' ' then '_' else c)

/-- Python `str.replace("_", " ")` (single-character pattern). -/
def underscoresToSpaces (s : List Char) : List Char :=
  s.map (fun c => if c = '_' then ' ' else c)

/-- STEP 1 of `main (not good).py`:
`clean = location_string.strip().replace(" ", "_")`;
`return f"http://dbpedia.org/resource/{clean}"`. -/
def to_dbpedia_uri (location_string : String) : String :=
  "http://dbpedia.org/resource/" ++
    String.mk (spacesToUnderscores (pyStrip location_string.data))

/-- STEP 2 of `main (not good).py`: `redirects` supplies the bound
`?target` values of the `dbo:wikiPageRedirects` query;
`return bindings[0]["target"]["value"] if bindings else uri`. -/
def resolve_redirect (redirects : String → List String) (uri : String) : String :=
  match redirects uri with
  | [] => uri
  | t :: _ => t

/-- `wd_links = [l for l in links if "wikidata.org/entity" in l]`. -/
def wdFilter (links : List String) : List String :=
  links.filter (fun l => containsStr l "wikidata.org/entity")

/-- `geo_links = [l for l in links if "geonames.org" in l]`. -/
def geoFilter (links : List String) : List String :=
  links.filter (fun l => containsStr l "geonames.org")

/-- The STEP-5 disambiguation loop over `wd_links`, instrumented: the first
component is `is_city`, the second `verified_wd_uri`, and the third records
the candidates on which `is_city_wikidata` was actually evaluated, in
evaluation order (the Python loop `break`s at the first `True`). -/
def cityLoop (isCity : String → Bool) : List String → Bool × Option String × List String
  | [] => (false, none, [])
  | u :: rest =>
    if isCity u then (true, some u, [u])
    else
      let r := cityLoop isCity rest
      (r.1, r.2.1, u :: r.2.2)

/-- The STEP-5 GeoNames choice:
`if geo_links: for geo_uri in geo_links: if geo_uri != verified_wd_uri: ...`.
A Python string compares unequal to `None`, hence the `Option` comparison. -/
def chooseGeo (geoLinks : List String) (excluded : Option String) : Option String :=
  if geoLinks.isEmpty then none
  else geoLinks.find? (fun g => !(excluded == some g))

/-- The record returned by `link_poi_to_city`. -/
structure LocationInfo where
  location_string : String
  dbpedia_uri : String
  wikidata_uri : Option String
  geonames_uri : Option String
  is_city : Bool
deriving DecidableEq

/-- STEP 5 of `main (not good).py`, with the three SPARQL queries passed in
as result-supplying functions (`redirects` for STEP 2, `sameAs` for STEP 3,
`isCity` for STEP 4). -/
def link_poi_to_city (redirects : String → List String)
    (sameAs : String → List String) (isCity : String → Bool)
    (location_string : String) : LocationInfo :=
  let db_uri := to_dbpedia_uri location_string
  let resolved := resolve_redirect redirects db_uri
  let links := sameAs resolved
  let wd_links := wdFilter links
  let geo_links := geoFilter links
  let r := cityLoop isCity wd_links
  let verified_geo := chooseGeo geo_links r.2.1
  { location_string := location_string
    dbpedia_uri := resolved
    wikidata_uri := r.2.1
    geonames_uri := verified_geo
    is_city := r.1 }

/-- RDF terms as they occur in the two builders: URI references, plain
string literals, and the one `xsd:boolean`-typed literal. -/
inductive RDFTerm where
  | uri : String → RDFTerm
  | lit : String → RDFTerm
  | litBool : Bool → RDFTerm
deriving DecidableEq

/-- An RDF triple (subject, predicate, object). -/
abbrev Triple := RDFTerm × RDFTerm × RDFTerm

/-- `rdflib` graphs store a set of distinct triples. -/
abbrev RDFGraph := Finset Triple

def rdfType : RDFTerm := .uri "http://www.w3.org/1999/02/22-rdf-syntax-ns#type"

def owlSameAs : RDFTerm := .uri "http://www.w3.org/2002/07/owl#sameAs"

def rdfsSubClassOf : RDFTerm := .uri "http://www.w3.org/2000/01/rdf-schema#subClassOf"

/-- `EX = Namespace("http://example.org/ontology/")` of `main (not good).py`. -/
def exNS (s : String) : RDFTerm := .uri ("http://example.org/ontology/" ++ s)

/-- `EX = Namespace("http://example.org/kg/")` of `test.py`. -/
def exKG (s : String) : RDFTerm := .uri ("http://example.org/kg/" ++ s)

/-- `DBR = Namespace("http://dbpedia.org/resource/")`. -/
def dbrNS (s : String) : String := "http://dbpedia.org/resource/" ++ s

/-- STEP 6 of `main (not good).py`: the triples added for one POI/location.
The `if location_info.get("wikidata_uri"):` guards are Python truthiness
tests, so `None` and the empty string both skip the `owl:sameAs` triple. -/
def create_poi_city_triples (poi_uri type_string : String)
    (location_info : LocationInfo) : RDFGraph :=
  let poi : RDFTerm := .uri poi_uri
  let city : RDFTerm := .uri location_info.dbpedia_uri
  let base : RDFGraph :=
    {(poi, rdfType, exNS type_string),
     (poi, exNS "locatedIn", city),
     (poi, exNS "typeString", RDFTerm.lit type_string),
     (poi, exNS "locationString", RDFTerm.lit location_info.location_string),
     (city, rdfType, exNS "City"),
     (city, exNS "isVerifiedCity", RDFTerm.litBool location_info.is_city)}
  let withWd : RDFGraph :=
    match location_info.wikidata_uri with
    | some w => if w = "" then base else insert (city, owlSameAs, RDFTerm.uri w) base
    | none => base
  match location_info.geonames_uri with
  | some g => if g = "" then withWd else insert (city, owlSameAs, RDFTerm.uri g) withWd
  | none => withWd

/-- STEP 7 of `main (not good).py`: `final_graph = Graph()` followed by
`final_graph += g` for each per-location graph, i.e. an iterated union. -/
def final_graph (graphs : List RDFGraph) : RDFGraph :=
  graphs.foldl (fun acc g => acc ∪ g) ∅

/-- The inner loop of `build_kg` in `test.py` (lines 131-134): starting from
`prev_type_uri`, each `(super_uri, label)` result adds
`(prev_type_uri, RDFS.subClassOf, super_ref)` and then re-binds
`prev_type_uri = super_ref`. -/
def hierarchyChain (prev : RDFTerm) : List (String × String) → List Triple
  | [] => []
  | (su, _) :: rest =>
    (prev, rdfsSubClassOf, RDFTerm.uri su) :: hierarchyChain (RDFTerm.uri su) rest

/-- One `build_kg` row of `test.py`, as the ordered list of `g.add` calls it
performs; `hierarchyOf` supplies `get_wikidata_type_hierarchy(wd_links[0])`
and `wd_links` supplies `get_wikidata_mapping(row["POI"])`. -/
def build_kg_row (hierarchyOf : String → List (String × String))
    (poi location type_str : String) (wd_links : List String) : List Triple :=
  let poi_uri : RDFTerm := .uri poi
  let city_uri : RDFTerm := .uri (dbrNS (String.mk (spacesToUnderscores location.data)))
  [(poi_uri, rdfType, exKG "POI"),
   (poi_uri, exKG "locatedIn", city_uri),
   (poi_uri, exKG "typeString", RDFTerm.lit type_str),
   (city_uri, rdfType, exKG "City")] ++
  match wd_links with
  | [] => []
  | w :: _ =>
    let prev : RDFTerm := exKG (String.mk (spacesToUnderscores type_str.data))
    [(poi_uri, owlSameAs, RDFTerm.uri w),
     (poi_uri, exKG "hasType", prev),
     (prev, rdfType, exKG "AttractionType")] ++
    hierarchyChain prev (hierarchyOf w)

/-- The literal part of `CATEGORY_REGEX`, i.e. everything before the first
capture group of `r"http://dbpedia\.org/resource/Category:(.+?)_(in|of)_(.+)"`. -/
def catStem : List Char := "http://dbpedia.org/resource/Category:".data

/-- Whether the four characters of `rest` starting at index `k` read
`_in_` or `_of_` (the `_(in|of)_` part of `CATEGORY_REGEX`). -/
def sepAt (rest : List Char) (k : Nat) : Bool :=
  ((rest.drop k).take 4 == "_in_".data) || ((rest.drop k).take 4 == "_of_".data)

/-- `k` is a group boundary at which the backtracking match of
`(.+?)_(in|of)_(.+)` against `rest` can succeed: group 1 (`rest.take k`)
is nonempty and newline-free (`.` does not match `\n`), the separator
reads at position `k`, and group 3 starts with at least one non-newline
character. -/
def validSep (rest : List Char) (k : Nat) : Bool :=
  decide (1 ≤ k) && sepAt rest k && decide (k + 4 < rest.length) &&
    !((rest.take k).contains '\n') && !((rest.drop (k + 4)).headD '\n' == '\n')

/-- The boundary chosen by the lazy `(.+?)`: the least valid one. -/
def firstSep (rest : List Char) : Option Nat :=
  (List.range rest.length).find? (validSep rest)

/-- `parse_category_uri` of `test.py`: `CATEGORY_REGEX.match(category_uri)`
(anchored at the start only), returning the two captured groups with
underscores replaced by spaces on a match and `(None, None)` otherwise.
Group 3 is the greedy `(.+)`: everything after the separator up to the end
or the first newline. -/
def parse_category_uri (category_uri : String) : Option String × Option String :=
  let s := category_uri.data
  if catStem.isPrefixOf s then
    let rest := s.drop catStem.length
    match firstSep rest with
    | some k =>
      (some (String.mk (underscoresToSpaces (rest.take k))),
       some (String.mk (underscoresToSpaces ((rest.drop (k + 4)).takeWhile (· ≠ '\n')))))
    | none => (none, none)
  else (none, none)

/-- A redirect result set with a two-hop chain `A → B → C`, used to show
that single-hop resolution is not idempotent on chained data. -/
def chainRedirects : String → List String :=
  fun u => if u = "A" then ["B"] else if u = "B" then ["C"] else []

/-- A redirect result set whose only target is itself redirect-free. -/
def singleRedirect : String → List String :=
  fun u => if u = "A" then ["B"] else []

/-- The complement class of the two link filters of STEP 5: links in
neither the Wikidata nor the GeoNames partition (the spec's `Other`
class; the code simply leaves them in `links`). -/
def otherFilter (links : List String) : List String :=
  links.filter
    (fun l => !containsStr l "wikidata.org/entity" && !containsStr l "geonames.org")

/-- A syntactically well-formed URI containing both the Wikidata-entity
and the GeoNames namespace substrings that the two filters test for. -/
def overlapLink : String := "http://www.wikidata.org/entity/Q1?x=geonames.org"

/-! ## Helper lemmas -/

lemma hierarchyChain_eq_zipWith (hs : List (String × String)) :
    ∀ prev, hierarchyChain prev hs =
      List.zipWith (fun a b => (a, rdfsSubClassOf, RDFTerm.uri b.1))
        (prev :: hs.map (fun h => RDFTerm.uri h.1)) hs := by
  induction hs with
  | nil => intro prev; rfl
  | cons h t ih =>
    intro prev
    obtain ⟨su, la⟩ := h
    simp [hierarchyChain, ih]

lemma hierarchyChain_filter_self (hs : List (String × String)) :
    ∀ prev, (hierarchyChain prev hs).filter (fun tr => tr.2.1 == rdfsSubClassOf) =
      hierarchyChain prev hs := by
  induction hs with
  | nil => intro prev; rfl
  | cons h t ih =>
    intro prev
    obtain ⟨su, la⟩ := h
    simp [hierarchyChain, List.filter_cons, ih]

/-! ## Claim theorems -/

/-- C2: the `build_kg` hierarchy loop emits a singly linked chain of
`rdfs:subClassOf` triples through the query results — one triple per
result, each triple's subject being the node introduced by the previous
iteration (the base type node for the first) — rather than a star rooted
at the base type.  Stated as: (1) the chain equals the zip of the shifted
node sequence with the result list; (2) exactly one triple per result;
(3) within a full `build_kg` row the `subClassOf`-predicate triples are
exactly that chain; (4)–(5) on results `[A, B, C]` for base `T` the output
is `T → A → B → C` and does not contain the star edge `T → B`. -/
theorem C2_subclass_chain :
    ∀ (prev : RDFTerm) (hs : List (String × String)),
      hierarchyChain prev hs =
        List.zipWith (fun a b => (a, rdfsSubClassOf, RDFTerm.uri b.1))
          (prev :: hs.map (fun h => RDFTerm.uri h.1)) hs ∧
      (hierarchyChain prev hs).length = hs.length ∧
      (∀ (hOf : String → List (String × String)) (poi loc ts w : String)
          (ws : List String),
        (build_kg_row hOf poi loc ts (w :: ws)).filter
            (fun tr => tr.2.1 == rdfsSubClassOf) =
          hierarchyChain (exKG (String.mk (spacesToUnderscores ts.data))) (hOf w)) ∧
      hierarchyChain (exKG "T") [("A", "a"), ("B", "b"), ("C", "c")] =
        [(exKG "T", rdfsSubClassOf, RDFTerm.uri "A"),
         (RDFTerm.uri "A", rdfsSubClassOf, RDFTerm.uri "B"),
         (RDFTerm.uri "B", rdfsSubClassOf, RDFTerm.uri "C")] ∧
      (exKG "T", rdfsSubClassOf, RDFTerm.uri "B") ∉
        hierarchyChain (exKG "T") [("A", "a"), ("B", "b"), ("C", "c")] := by
  intro prev hs
  refine ⟨hierarchyChain_eq_zipWith hs prev, ?_, ?_, by decide, by decide⟩
  · rw [hierarchyChain_eq_zipWith hs prev]
    simp
  · intro hOf poi loc ts w ws
    simp +decide [build_kg_row, List.filter_append, List.filter_cons,
      hierarchyChain_filter_self]

/-- C9: per-location graphs merge by set union, which is commutative and
idempotent; re-adding an already present triple, or merging the same pair
of graphs a second time, changes nothing. -/
theorem C9_graph_union :
    ∀ (g1 g2 : RDFGraph) (t : Triple),
      final_graph [g1, g2] = g1 ∪ g2 ∧
      g1 ∪ g2 = g2 ∪ g1 ∧
      (g1 ∪ g2) ∪ (g1 ∪ g2) = g1 ∪ g2 ∧
      insert t (insert t g1) = insert t g1 ∧
      final_graph [g1, g2, g1, g2] = final_graph [g1, g2] := by
  intro g1 g2 t
  refine ⟨?_, Finset.union_comm g1 g2, Finset.union_self _, Finset.insert_idem t g1, ?_⟩
  · simp [final_graph]
  · simp only [final_graph, List.foldl]
    ext x
    simp only [Finset.mem_union]
    tauto

/-- C5 counterexample: on the empty location string `to_dbpedia_uri` does
not fail — there is no `InvalidLocationError` anywhere in the source — and
instead returns the bare namespace `http://dbpedia.org/resource/`,
contradicting the claim that empty input fails. -/
theorem C5_empty_input_counterexample :
    to_dbpedia_uri "" = "http://dbpedia.org/resource/" := by decide

/-- C5 amended: `to_dbpedia_uri` is a total, deterministic, pure function
that trims the input, substitutes spaces with underscores and prepends the
DBpedia resource namespace; it never fails, and on empty input it returns
the bare namespace URI.  Conjuncts: (1) the output characters are the
namespace followed by the underscored trimmed input; (2) the output never
contains a space; (3) leading whitespace is trimmed away; (4) empty input
yields the bare namespace; (5) a concrete trim-and-substitute example. -/
theorem C5_to_dbpedia_uri_amended :
    (∀ s : String, (to_dbpedia_uri s).data =
      "http://dbpedia.org/resource/".data ++ spacesToUnderscores (pyStrip s.data)) ∧
    (∀ s : String, ' ' ∉ (to_dbpedia_uri s).data) ∧
    (∀ s : String, to_dbpedia_uri (" " ++ s) = to_dbpedia_uri s) ∧
    to_dbpedia_uri "" = "http://dbpedia.org/resource/" ∧
    to_dbpedia_uri " New York " = "http://dbpedia.org/resource/New_York" := by
  have hdata : ∀ s : String, (to_dbpedia_uri s).data =
      "http://dbpedia.org/resource/".data ++ spacesToUnderscores (pyStrip s.data) := by
    intro s
    simp [to_dbpedia_uri]
  refine ⟨hdata, ?_, ?_, by decide, by decide⟩
  · intro s hmem
    rw [hdata s] at hmem
    rcases List.mem_append.1 hmem with h | h
    · have hns : ' ' ∉ "http://dbpedia.org/resource/".data := by decide
      exact hns h
    · rcases List.mem_map.1 h with ⟨c, _, hc⟩
      by_cases h1 : c = ' ' <;> simp [h1] at hc
  · intro s
    have : pyStrip (' ' :: s.data) = pyStrip s.data := by
      simp [pyStrip, List.dropWhile_cons, isPySpace]
    simp [to_dbpedia_uri, this]

/-- C6 counterexample: with the chained redirect data `A → B → C`,
single-hop resolution is not idempotent: resolving `A` gives `B`, but
resolving the result again gives `C`. -/
theorem C6_chain_counterexample :
    resolve_redirect chainRedirects (resolve_redirect chainRedirects "A") ≠
      resolve_redirect chainRedirects "A" := by decide

/-- C6 amended: `resolve_redirect` follows a single hop, so it is
idempotent exactly on redirect data without chains: whenever every
redirect target is itself redirect-free, resolving twice equals resolving
once (with a chained target, as in the counterexample, idempotence fails). -/
theorem C6_redirect_idempotent_amended :
    ∀ (redirects : String → List String) (x : String),
      (∀ u t ts, redirects u = t :: ts → redirects t = []) →
      resolve_redirect redirects (resolve_redirect redirects x) =
        resolve_redirect redirects x := by
  intro redirects x h
  rcases hrx : redirects x with _ | ⟨t, ts⟩
  · simp [resolve_redirect, hrx]
  · have ht : redirects t = [] := h x t ts hrx
    simp [resolve_redirect, hrx, ht]

/-- C6 witness: the amended idempotence law applied to the concrete
chain-free redirect data `singleRedirect` at input `A`. -/
theorem C6_redirect_idempotent_witness :
    resolve_redirect singleRedirect (resolve_redirect singleRedirect "A") =
      resolve_redirect singleRedirect "A" := by
  apply C6_redirect_idempotent_amended
  intro u t ts h
  by_cases hu : u = "A"
  · rw [hu] at h
    simp only [singleRedirect, if_pos rfl] at h
    have ht : t = "B" := by
      have := congrArg (fun l => l.headD "") h.symm
      simpa using this
    rw [ht]
    decide
  · simp [singleRedirect, hu] at h

lemma cityLoop_spec (p : String → Bool) (links : List String) :
    cityLoop p links =
      ((links.find? p).isSome, links.find? p, links.take (links.findIdx p + 1)) := by
  induction links with
  | nil => rfl
  | cons u rest ih =>
    by_cases hu : p u
    · simp [cityLoop, hu, List.findIdx_cons]
    · simp [cityLoop, hu, List.findIdx_cons, ih]

lemma find_first_unique (p : String → Bool) (links : List String) :
    ∀ c, c ∈ links → (∀ x ∈ links, p x = true ↔ x = c) → links.find? p = some c := by
  induction links with
  | nil => intro c hc _; cases hc
  | cons u rest ih =>
    intro c hc hiff
    by_cases hu : p u
    · have huc : u = c := (hiff u (List.mem_cons_self u rest)).1 hu
      subst huc
      exact List.find?_cons_of_pos _ hu
    · have hne : u ≠ c := fun he => hu ((hiff u (List.mem_cons_self u rest)).2 he)
      have hc' : c ∈ rest := by
        rcases List.mem_cons.1 hc with h | h
        · exact absurd h.symm hne
        · exact h
      rw [List.find?_cons_of_neg _ hu]
      exact ih c hc' (fun x hx => hiff x (List.mem_cons_of_mem u hx))

/-- C1: the Wikidata disambiguation loop evaluates candidates in list order
and stops at the first verified city.  Conjuncts: (1) `verified_wd_uri` is
the first candidate satisfying the oracle; (2) `is_city` is true exactly
when some candidate verifies; (3) the evaluated candidates are exactly the
prefix up to and including the first verified one (all of them when none
verifies), so no later candidate is evaluated; (4) when no candidate
verifies the loop returns `false`/`None` having scanned the whole list;
(5) when exactly one candidate verifies it is returned regardless of
position; (6) inside `link_poi_to_city` the record fields are exactly
this first-match result over the filtered Wikidata links. -/
theorem C1_first_match_disambiguation :
    ∀ (isCity : String → Bool) (links : List String),
      (cityLoop isCity links).2.1 = links.find? isCity ∧
      (cityLoop isCity links).1 = (links.find? isCity).isSome ∧
      (cityLoop isCity links).2.2 = links.take (links.findIdx isCity + 1) ∧
      ((∀ x ∈ links, isCity x = false) → cityLoop isCity links = (false, none, links)) ∧
      (∀ c, c ∈ links → (∀ x ∈ links, isCity x = true ↔ x = c) →
        links.find? isCity = some c) ∧
      (∀ (redirects sameAs : String → List String) (loc : String),
        (link_poi_to_city redirects sameAs isCity loc).wikidata_uri =
          (wdFilter (sameAs (resolve_redirect redirects (to_dbpedia_uri loc)))).find?
            isCity ∧
        (link_poi_to_city redirects sameAs isCity loc).is_city =
          ((wdFilter (sameAs (resolve_redirect redirects (to_dbpedia_uri loc)))).find?
            isCity).isSome) := by
  intro isCity links
  refine ⟨?_, ?_, ?_, ?_, find_first_unique isCity links, ?_⟩
  · rw [cityLoop_spec]
  · rw [cityLoop_spec]
  · rw [cityLoop_spec]
  · intro hall
    have hnone : links.find? isCity = none := List.find?_eq_none.2 (by simpa using hall)
    have hidx : links.findIdx isCity = links.length := by
      apply List.findIdx_eq_length.2
      simpa using hall
    rw [cityLoop_spec, hnone, hidx]
    simp [List.take_of_length_le (Nat.le_succ _)]
  · intro redirects sameAs loc
    constructor <;> simp [link_poi_to_city, cityLoop_spec]

/-- C1 witness: the first-match law applied to a concrete oracle accepting
only `Q2` in a three-candidate list where `Q2` sits in the middle. -/
theorem C1_first_match_witness :
    ["http://www.wikidata.org/entity/Q1", "http://www.wikidata.org/entity/Q2",
     "http://www.wikidata.org/entity/Q3"].find?
        (fun u => u == "http://www.wikidata.org/entity/Q2") =
      some "http://www.wikidata.org/entity/Q2" :=
  (C1_first_match_disambiguation (fun u => u == "http://www.wikidata.org/entity/Q2")
    ["http://www.wikidata.org/entity/Q1", "http://www.wikidata.org/entity/Q2",
     "http://www.wikidata.org/entity/Q3"]).2.2.2.2.1
    "http://www.wikidata.org/entity/Q2" (by decide) (by decide)

lemma chooseGeo_eq_find (geoLinks : List String) (excluded : Option String) :
    chooseGeo geoLinks excluded = geoLinks.find? (fun g => !(excluded == some g)) := by
  cases geoLinks <;> rfl

lemma chooseGeo_ne (geoLinks : List String) (excluded : Option String) :
    ∀ g, chooseGeo geoLinks excluded = some g → excluded ≠ some g := by
  intro g hg he
  rw [chooseGeo_eq_find] at hg
  have hpg := List.find?_some hg
  rw [he] at hpg
  simp at hpg

/-- C3: the GeoNames choice returns the first entry different from the
excluded URI and `None` on the empty list; consequently the returned
record never carries equal Wikidata and GeoNames URIs, and the chosen
GeoNames URI never equals the excluded URI when an alternative exists.
Conjuncts: (1) the loop equals first-match search with the
not-equal-to-excluded predicate; (2) empty input gives `None`;
(3) a returned value never equals the excluded URI; (4) when some entry
differs from the excluded URI a choice is made and differs from it;
(5) in `link_poi_to_city`, whenever both `wikidata_uri` and
`geonames_uri` are present they differ. -/
theorem C3_choose_geonames :
    ∀ (geoLinks : List String) (excluded : Option String),
      chooseGeo geoLinks excluded = geoLinks.find? (fun g => !(excluded == some g)) ∧
      chooseGeo [] excluded = none ∧
      (∀ g, chooseGeo geoLinks excluded = some g → excluded ≠ some g) ∧
      ((∃ x ∈ geoLinks, excluded ≠ some x) →
        ∃ g, chooseGeo geoLinks excluded = some g ∧ excluded ≠ some g) ∧
      (∀ (redirects sameAs : String → List String) (isCity : String → Bool)
          (loc : String) (w g : String),
        (link_poi_to_city redirects sameAs isCity loc).wikidata_uri = some w →
        (link_poi_to_city redirects sameAs isCity loc).geonames_uri = some g →
        w ≠ g) := by
  intro geoLinks excluded
  refine ⟨chooseGeo_eq_find geoLinks excluded, rfl, chooseGeo_ne geoLinks excluded,
    ?_, ?_⟩
  · rintro ⟨x, hx, hxe⟩
    have hsome : (geoLinks.find? (fun g => !(excluded == some g))).isSome := by
      apply List.find?_isSome.2
      exact ⟨x, hx, by simp [hxe]⟩
    rcases Option.isSome_iff_exists.1 hsome with ⟨g, hg⟩
    have hcg : chooseGeo geoLinks excluded = some g := by
      rw [chooseGeo_eq_find]; exact hg
    exact ⟨g, hcg, chooseGeo_ne geoLinks excluded g hcg⟩
  · intro redirects sameAs isCity loc w g hw hg heq
    simp only [link_poi_to_city] at hw hg
    rw [hw] at hg
    exact chooseGeo_ne _ (some w) g hg (by rw [heq])

/-- C3 witness: the exclusion law applied to the concrete list
`[geoA, geoB]` with `geoA` excluded: a choice different from `geoA`
is made. -/
theorem C3_choose_geonames_witness :
    ∃ g, chooseGeo ["http://sws.geonames.org/A/", "http://sws.geonames.org/B/"]
        (some "http://sws.geonames.org/A/") = some g ∧
      (some "http://sws.geonames.org/A/" : Option String) ≠ some g :=
  (C3_choose_geonames ["http://sws.geonames.org/A/", "http://sws.geonames.org/B/"]
    (some "http://sws.geonames.org/A/")).2.2.2.1
    ⟨"http://sws.geonames.org/B/", by decide, by decide⟩

/-- C7 counterexample: the filters of `link_poi_to_city` classify by
substring containment anywhere in the URI, so a link containing both the
Wikidata-entity and the GeoNames substrings lands in both the Wikidata and
the GeoNames partition, refuting exactly-one classification. -/
theorem C7_overlap_counterexample :
    wdFilter [overlapLink] = [overlapLink] ∧
    geoFilter [overlapLink] = [overlapLink] := by decide

/-- C7 amended: every aggregated link is classified into at least one of
the three classes (`Other` being the complement of the two filters); a
link lands in both the Wikidata and the GeoNames partition exactly when it
contains both namespace substrings, and every link containing at most one
of the two substrings is classified into exactly one class. -/
theorem C7_partition_amended :
    ∀ (links : List String) (l : String), l ∈ links →
      (l ∈ wdFilter links ∨ l ∈ geoFilter links ∨ l ∈ otherFilter links) ∧
      (¬(containsStr l "wikidata.org/entity" = true ∧
          containsStr l "geonames.org" = true) →
        (l ∈ wdFilter links ∧ l ∉ geoFilter links ∧ l ∉ otherFilter links) ∨
        (l ∉ wdFilter links ∧ l ∈ geoFilter links ∧ l ∉ otherFilter links) ∨
        (l ∉ wdFilter links ∧ l ∉ geoFilter links ∧ l ∈ otherFilter links)) ∧
      ((l ∈ wdFilter links ∧ l ∈ geoFilter links) ↔
        (containsStr l "wikidata.org/entity" = true ∧
          containsStr l "geonames.org" = true)) := by
  intro links l hl
  have hwmem : l ∈ wdFilter links ↔ containsStr l "wikidata.org/entity" = true := by
    simp [wdFilter, List.mem_filter, hl]
  have hgmem : l ∈ geoFilter links ↔ containsStr l "geonames.org" = true := by
    simp [geoFilter, List.mem_filter, hl]
  have homem : l ∈ otherFilter links ↔
      (containsStr l "wikidata.org/entity" = false ∧
        containsStr l "geonames.org" = false) := by
    simp [otherFilter, List.mem_filter, hl]
  cases hw : containsStr l "wikidata.org/entity" <;>
    cases hg : containsStr l "geonames.org" <;>
      simp [hwmem, hgmem, homem, hw, hg]

/-- C7 witness: a plain Wikidata-entity URI is classified into exactly one
class, namely the Wikidata partition. -/
theorem C7_partition_witness :
    ("http://www.wikidata.org/entity/Q2" ∈
        wdFilter ["http://www.wikidata.org/entity/Q2"] ∧
      "http://www.wikidata.org/entity/Q2" ∉
        geoFilter ["http://www.wikidata.org/entity/Q2"] ∧
      "http://www.wikidata.org/entity/Q2" ∉
        otherFilter ["http://www.wikidata.org/entity/Q2"]) ∨
    ("http://www.wikidata.org/entity/Q2" ∉
        wdFilter ["http://www.wikidata.org/entity/Q2"] ∧
      "http://www.wikidata.org/entity/Q2" ∈
        geoFilter ["http://www.wikidata.org/entity/Q2"] ∧
      "http://www.wikidata.org/entity/Q2" ∉
        otherFilter ["http://www.wikidata.org/entity/Q2"]) ∨
    ("http://www.wikidata.org/entity/Q2" ∉
        wdFilter ["http://www.wikidata.org/entity/Q2"] ∧
      "http://www.wikidata.org/entity/Q2" ∉
        geoFilter ["http://www.wikidata.org/entity/Q2"] ∧
      "http://www.wikidata.org/entity/Q2" ∈
        otherFilter ["http://www.wikidata.org/entity/Q2"]) :=
  (C7_partition_amended ["http://www.wikidata.org/entity/Q2"]
    "http://www.wikidata.org/entity/Q2" (by decide)).2.1 (by decide)

/-- C8: when the `owl:sameAs` aggregation for a location returns no links,
the record is unverified (`is_city = false`) and the per-location graph
contains the City node's `isVerifiedCity = false` boolean literal triple
and no `owl:sameAs` triple at all. -/
theorem C8_no_links_graph :
    ∀ (redirects sameAs : String → List String) (isCity : String → Bool)
      (loc poi ts : String),
      sameAs (resolve_redirect redirects (to_dbpedia_uri loc)) = [] →
      (link_poi_to_city redirects sameAs isCity loc).is_city = false ∧
      (RDFTerm.uri (link_poi_to_city redirects sameAs isCity loc).dbpedia_uri,
        exNS "isVerifiedCity", RDFTerm.litBool false) ∈
        create_poi_city_triples poi ts (link_poi_to_city redirects sameAs isCity loc) ∧
      ∀ tr ∈ create_poi_city_triples poi ts
          (link_poi_to_city redirects sameAs isCity loc),
        tr.2.1 ≠ owlSameAs := by
  intro redirects sameAs isCity loc poi ts h
  have hinfo : link_poi_to_city redirects sameAs isCity loc =
      { location_string := loc,
        dbpedia_uri := resolve_redirect redirects (to_dbpedia_uri loc),
        wikidata_uri := none, geonames_uri := none, is_city := false } := by
    simp [link_poi_to_city, h, wdFilter, geoFilter, cityLoop, chooseGeo]
  rw [hinfo]
  refine ⟨rfl, ?_, ?_⟩
  · simp [create_poi_city_triples]
  · intro tr htr
    obtain ⟨s, p, o⟩ := tr
    show p ≠ owlSameAs
    simp only [create_poi_city_triples, Finset.mem_insert, Finset.mem_singleton,
      Prod.mk.injEq] at htr
    rcases htr with ⟨h1, h2, h3⟩ | ⟨h1, h2, h3⟩ | ⟨h1, h2, h3⟩ | ⟨h1, h2, h3⟩ |
      ⟨h1, h2, h3⟩ | ⟨h1, h2, h3⟩ <;> subst h2 <;> decide

/-- C8 witness: the empty-aggregation law at a concrete location with all
query oracles returning nothing. -/
theorem C8_no_links_witness :
    (link_poi_to_city (fun _ => []) (fun _ => []) (fun _ => false)
        "Valencia").is_city = false ∧
    (RDFTerm.uri (link_poi_to_city (fun _ => []) (fun _ => []) (fun _ => false)
        "Valencia").dbpedia_uri,
      exNS "isVerifiedCity", RDFTerm.litBool false) ∈
      create_poi_city_triples "http://example.org/poi/P" "Attraction"
        (link_poi_to_city (fun _ => []) (fun _ => []) (fun _ => false) "Valencia") ∧
    ∀ tr ∈ create_poi_city_triples "http://example.org/poi/P" "Attraction"
        (link_poi_to_city (fun _ => []) (fun _ => []) (fun _ => false) "Valencia"),
      tr.2.1 ≠ owlSameAs :=
  C8_no_links_graph (fun _ => []) (fun _ => []) (fun _ => false)
    "Valencia" "http://example.org/poi/P" "Attraction" rfl

lemma find_range_eq_some (p : Nat → Bool) (n k : Nat) (hk : k < n) (hp : p k = true)
    (hmin : ∀ j, j < k → p j = false) : (List.range n).find? p = some k := by
  obtain ⟨m, hm⟩ : ∃ m, n = k + (m + 1) := ⟨n - k - 1, by omega⟩
  subst hm
  rw [List.range_add, List.find?_append]
  have h1 : (List.range k).find? p = none := by
    rw [List.find?_eq_none]
    intro x hx
    simp [hmin x (List.mem_range.1 hx)]
  rw [h1, List.range_succ_eq_map]
  simp [hp]

lemma firstSep_eq_some (rest : List Char) (k : Nat) (hk : validSep rest k = true)
    (hmin : ∀ j, j < k → validSep rest j = false) : firstSep rest = some k := by
  have hlen : k + 4 < rest.length := by
    simp only [validSep, Bool.and_eq_true, decide_eq_true_eq] at hk
    exact hk.1.1.2
  exact find_range_eq_some _ _ _ (by omega) hk hmin

lemma parse_eq_of_sep (s : String) (k : Nat)
    (hpre : catStem.isPrefixOf s.data = true)
    (hk : validSep (s.data.drop catStem.length) k = true)
    (hmin : ∀ j, j < k → validSep (s.data.drop catStem.length) j = false) :
    parse_category_uri s =
      (some (String.mk (underscoresToSpaces ((s.data.drop catStem.length).take k))),
       some (String.mk (underscoresToSpaces
         (((s.data.drop catStem.length).drop (k + 4)).takeWhile (· ≠ '\n'))))) := by
  have hfs := firstSep_eq_some _ k hk hmin
  simp [parse_category_uri, hpre, hfs]

/-- C10: `parse_category_uri` splits at the first `_in_`/`_of_` separator
admissible for the backtracking match: the type label is the segment before
the first separator and the location label everything after it, underscores
replaced by spaces in both.  In particular
`.../Category:Museums_of_art_in_Valencia`, which contains both a `_of_`
and a later `_in_`, yields `("Museums", "art in Valencia")`. -/
theorem C10_first_separator_split :
    (∀ (s : String) (k : Nat),
      catStem.isPrefixOf s.data = true →
      validSep (s.data.drop catStem.length) k = true →
      (∀ j, j < k → validSep (s.data.drop catStem.length) j = false) →
      parse_category_uri s =
        (some (String.mk (underscoresToSpaces ((s.data.drop catStem.length).take k))),
         some (String.mk (underscoresToSpaces
           (((s.data.drop catStem.length).drop (k + 4)).takeWhile (· ≠ '\n')))))) ∧
    parse_category_uri
        "http://dbpedia.org/resource/Category:Museums_of_art_in_Valencia" =
      (some "Museums", some "art in Valencia") :=
  ⟨parse_eq_of_sep, by decide⟩

/-- C10 witness: the first-separator law applied to a concrete URI whose
first separator is the `_of_` at offset 7 of the category name. -/
theorem C10_first_separator_witness :
    parse_category_uri
        "http://dbpedia.org/resource/Category:Bridges_of_Madrid_in_Spain" =
      (some "Bridges", some "Madrid in Spain") := by
  have h := C10_first_separator_split.1
    "http://dbpedia.org/resource/Category:Bridges_of_Madrid_in_Spain" 7
    (by decide) (by decide) (by decide)
  exact h.trans (by decide)

/-- C4 counterexample: `CATEGORY_REGEX` starts with the literal
`http://dbpedia.org/resource/` and `re.match` anchors at the beginning, so
the bare input `"Category:Museums_in_Valencia"` named by the claim does not
match and parses to `(None, None)`, not to `("Museums", "Valencia")`. -/
theorem C4_bare_category_counterexample :
    parse_category_uri "Category:Museums_in_Valencia" = (none, none) := by decide

/-- C4 amended: the parser applies the anchored pattern
`http://dbpedia.org/resource/Category:<Type>_(in|of)_<Location>` — the full
DBpedia resource prefix is required.  On a match both captured groups have
underscores replaced with spaces (so neither output label contains an
underscore); on no match the result is `(None, None)`.  In particular the
full URI `.../Category:Museums_in_Valencia` parses to
`("Museums", "Valencia")`, while `"Category:RandomPage"`, the bare
`"Category:Museums_in_Valencia"`, and `.../Category:RandomPage` all parse
to `(None, None)`. -/
theorem C4_parse_category_amended :
    (∀ s : String, catStem.isPrefixOf s.data = false →
      parse_category_uri s = (none, none)) ∧
    (∀ s : String, parse_category_uri s = (none, none) ∨
      ∃ t l, parse_category_uri s = (some t, some l)) ∧
    (∀ (s t l : String), parse_category_uri s = (some t, some l) →
      '_' ∉ t.data ∧ '_' ∉ l.data) ∧
    parse_category_uri "http://dbpedia.org/resource/Category:Museums_in_Valencia" =
      (some "Museums", some "Valencia") ∧
    parse_category_uri "Category:RandomPage" = (none, none) ∧
    parse_category_uri "http://dbpedia.org/resource/Category:RandomPage" =
      (none, none) := by
  have hmem : ∀ x : List Char, '_' ∉ underscoresToSpaces x := by
    intro x hx
    rcases List.mem_map.1 hx with ⟨c, _, hc⟩
    by_cases h1 : c = '_' <;> simp [h1] at hc
  refine ⟨?_, ?_, ?_, by decide, by decide, by decide⟩
  · intro s hpre
    simp [parse_category_uri, hpre]
  · intro s
    by_cases hpre : catStem.isPrefixOf s.data
    · rcases hfs : firstSep (s.data.drop catStem.length) with _ | k
      · left; simp [parse_category_uri, hpre, hfs]
      · right
        exact ⟨String.mk (underscoresToSpaces ((s.data.drop catStem.length).take k)),
          String.mk (underscoresToSpaces
            (((s.data.drop catStem.length).drop (k + 4)).takeWhile (· ≠ '\n'))),
          by simp [parse_category_uri, hpre, hfs]⟩
    · left; simp [parse_category_uri, hpre]
  · intro s t l h
    simp only [parse_category_uri] at h
    by_cases hpre : catStem.isPrefixOf s.data
    · rw [if_pos hpre] at h
      rcases hfs : firstSep (s.data.drop catStem.length) with _ | k <;> rw [hfs] at h
      · simp at h
      · simp only [Prod.mk.injEq, Option.some.injEq] at h
        obtain ⟨ht, hl⟩ := h
        constructor
        · rw [← ht]; exact hmem _
        · rw [← hl]; exact hmem _
    · rw [if_neg hpre] at h
      simp at h

/-- C4 witness: the no-prefix law applied to a concrete bare category
string, which therefore parses to `(None, None)`. -/
theorem C4_parse_category_witness :
    parse_category_uri "Category:Tourist_attractions_in_Madrid" = (none, none) :=
  C4_parse_category_amended.1 "Category:Tourist_attractions_in_Madrid" (by decide)

/-- C2 witness: the chain law at the concrete base `T` and results
`[A, B, C]`, yielding the linked chain `T → A → B → C`. -/
theorem C2_subclass_chain_witness :
    hierarchyChain (exKG "T") [("A", "a"), ("B", "b"), ("C", "c")] =
      [(exKG "T", rdfsSubClassOf, RDFTerm.uri "A"),
       (RDFTerm.uri "A", rdfsSubClassOf, RDFTerm.uri "B"),
       (RDFTerm.uri "B", rdfsSubClassOf, RDFTerm.uri "C")] :=
  (C2_subclass_chain (exKG "T") [("A", "a"), ("B", "b"), ("C", "c")]).2.2.2.1

/-- C5 witness: the trimming law of the amended statement at a concrete
location string. -/
theorem C5_to_dbpedia_uri_witness :
    to_dbpedia_uri (" " ++ "Berlin") = to_dbpedia_uri "Berlin" :=
  C5_to_dbpedia_uri_amended.2.2.1 "Berlin"

/-- C9 witness: the merge law at a concrete one-triple graph. -/
theorem C9_graph_union_witness :
    final_graph [{(owlSameAs, owlSameAs, owlSameAs)}, ∅] =
      ({(owlSameAs, owlSameAs, owlSameAs)} : RDFGraph) ∪ ∅ :=
  (C9_graph_union {(owlSameAs, owlSameAs, owlSameAs)} ∅
    (owlSameAs, owlSameAs, owlSameAs)).1
